import Mathlib

/-!
Verification development for the MHWorldData build pipeline: a shallow
embedding of the dictionary/collection utilities (`src/mhdata/util/__init__.py`),
the validators and per-family builders of the build orchestrator (`src/build.py`),
and the binary quest loader (`src/mhdata/merge/binary/load/quest_bload.py`).

Python dynamic values are modelled by the inductive `JValue`; insertion-ordered
Python dicts are modelled by association lists; functions that can raise are
modelled in `Except`.
-/

namespace MHWorldData

/-- Python scalar values as they appear in the JSON content tree:
integers, strings, booleans and None. -/
inductive Scalar where
  | int (n : Int)
  | str (s : String)
  | bool (b : Bool)
  | pynone
deriving DecidableEq

/-- A JSON-like dynamic value: a scalar, an insertion-ordered mapping
(modelled as an association list) or a sequence.  This is the value universe
that `joindicts`, `group_fields`, `ungroup_fields` and `flatten_dict`
operate on. -/
inductive JValue where
  | scalar (s : Scalar)
  | dict (entries : List (String × JValue))
  | list (elems : List JValue)

/-- Assignment `d[k] = v` on an insertion-ordered Python dict: replaces the
value in place when the key already exists, otherwise appends a new binding. -/
def dictSet (d : List (String × JValue)) (k : String) (v : JValue) :
    List (String × JValue) :=
  if (d.lookup k).isSome then d.map (fun p => if p.1 = k then (k, v) else p)
  else d ++ [(k, v)]

/-- The collision error raised by `joindicts`: the dotted key path built from
the running path and the two conflicting values (incoming value first,
existing value second), mirroring the message
`"unresolved collision and mismatch on key <path>, <value> into <existing>"`. -/
structure MergeError where
  path : String
  incoming : JValue
  existing : JValue

mutual
/-- Collision handling of `joindicts` for one key whose dotted path is
`path`: two dicts merge recursively (the recursive call extends the path
with `"."`), two lists concatenate with the destination elements first,
and anything else must be equal (deep Python equality; values of different
shapes are never equal) or the merge fails. -/
def mergeVal (path : String) : JValue → JValue → Except MergeError JValue
  | .dict d1, .dict d2 => (joinOne (path ++ ".") d1 d2).map .dict
  | .list l1, .list l2 => .ok (.list (l1 ++ l2))
  | .scalar s1, .scalar s2 =>
      if s1 = s2 then .ok (.scalar s1) else .error ⟨path, .scalar s2, .scalar s1⟩
  | v1, v2 => .error ⟨path, v2, v1⟩

/-- One pass of `joindicts`: merge the entries of one source dict into
`dest` in order.  A key absent from `dest` is taken as is; a colliding key
goes through `mergeVal`. -/
def joinOne (pfx : String) (dest : List (String × JValue)) :
    List (String × JValue) → Except MergeError (List (String × JValue))
  | [] => .ok dest
  | (key, value) :: rest =>
    match dest.lookup key with
    | Option.none => joinOne pfx (dictSet dest key value) rest
    | Option.some existing => do
        joinOne pfx (dictSet dest key (← mergeVal (pfx ++ key) existing value)) rest
end

/-- Function `joindicts(dest, *dictlist, prefix=pfx)`: merges each source dict into
the destination in order and returns the (in Python, mutated) destination. -/
def joindicts (dest : List (String × JValue))
    (dictlist : List (List (String × JValue))) (pfx : String) :
    Except MergeError (List (String × JValue)) :=
  match dictlist with
  | [] => .ok dest
  | d :: rest => do joindicts (← joinOne pfx dest d) rest pfx

/-- Inner loop of `get_duplicates`: `seen` is the set of elements already
passed over, duplicates are emitted in encounter order of their repeats. -/
def dupAux {α : Type} [DecidableEq α] (seen : List α) : List α → List α
  | [] => []
  | x :: xs => if x ∈ seen then x :: dupAux seen xs else dupAux (x :: seen) xs

/-- Function `get_duplicates(iterable)`: checks the iterable for duplicate entries
and returns them. -/
def get_duplicates {α : Type} [DecidableEq α] (l : List α) : List α :=
  dupAux [] l

/-! ### Helper lemmas about `dupAux` -/

theorem dupAux_mem {α : Type} [DecidableEq α] (seen : List α) (l : List α) (a : α) :
    a ∈ dupAux seen l ↔ 2 ≤ l.count a + (if a ∈ seen then 1 else 0) := by
  induction l generalizing seen with
  | nil => simp [dupAux]; split <;> omega
  | cons x xs ih =>
    by_cases hx : x ∈ seen
    · by_cases hax : a = x
      · subst hax
        simp [dupAux, hx, List.count_cons]
      · simp [dupAux, hx, ih, List.count_cons, hax, Ne.symm hax]
    · by_cases hax : a = x
      · subst hax
        simp [dupAux, hx, ih, List.count_cons]
      · simp [dupAux, hx, ih, List.count_cons, hax, Ne.symm hax]

theorem dupAux_sublist {α : Type} [DecidableEq α] (seen : List α) (l : List α) :
    (dupAux seen l).Sublist l := by
  induction l generalizing seen with
  | nil => simp [dupAux]
  | cons x xs ih =>
    by_cases hx : x ∈ seen
    · simpa [dupAux, hx] using (ih seen).cons₂ x
    · simpa [dupAux, hx] using (ih (x :: seen)).cons x

theorem get_duplicates_mem {α : Type} [DecidableEq α] (l : List α) (a : α) :
    a ∈ get_duplicates l ↔ 2 ≤ l.count a := by
  simpa [get_duplicates] using dupAux_mem [] l a

/-- Claim C6: `get_duplicates` returns, preserving first-seen-after order
(expressed as being a sublist of the input), every element that appears more
than once; in particular on `["a","b","a","c","b"]` it returns `["a","b"]`
and on `["a","b","c"]` it returns the empty sequence. -/
theorem get_duplicates_spec :
    get_duplicates ["a", "b", "a", "c", "b"] = ["a", "b"]
  ∧ get_duplicates ["a", "b", "c"] = ([] : List String)
  ∧ (∀ (l : List String) (x : String), x ∈ get_duplicates l ↔ 2 ≤ l.count x)
  ∧ (∀ l : List String, (get_duplicates l).Sublist l) := by
  refine ⟨by decide, by decide, ?_, ?_⟩
  · exact fun l x => get_duplicates_mem l x
  · exact fun l => dupAux_sublist [] l

/-! ### Behaviour of `joindicts` (claim C2) -/

/-- Claim C2: `joindicts` merges each source into the destination key by key:
an absent key is taken as is (appended), two mappings merge recursively with
the dotted path extended, two sequences concatenate destination first, equal
colliding scalars are kept, and unequal colliding scalars produce a collision
error carrying the dotted key path built from the running path and both
conflicting values; the (in Python, mutated) destination is returned.  The
closing conjuncts are the four concrete examples from the specification. -/
theorem joindicts_merge_rules :
    (∀ (pfx : String) (dest : List (String × JValue)) (k : String) (v : JValue),
      dest.lookup k = Option.none →
      joinOne pfx dest [(k, v)] = .ok (dest ++ [(k, v)]))
  ∧ (∀ (pfx : String) (dest : List (String × JValue)) (k : String)
        (d1 d2 : List (String × JValue)),
      dest.lookup k = Option.some (.dict d1) →
      joinOne pfx dest [(k, .dict d2)]
        = (joinOne (pfx ++ k ++ ".") d1 d2).map (fun m => dictSet dest k (.dict m)))
  ∧ (∀ (pfx : String) (dest : List (String × JValue)) (k : String)
        (l1 l2 : List JValue),
      dest.lookup k = Option.some (.list l1) →
      joinOne pfx dest [(k, .list l2)] = .ok (dictSet dest k (.list (l1 ++ l2))))
  ∧ (∀ (pfx : String) (dest : List (String × JValue)) (k : String) (s : Scalar),
      dest.lookup k = Option.some (.scalar s) →
      joinOne pfx dest [(k, .scalar s)] = .ok (dictSet dest k (.scalar s)))
  ∧ (∀ (pfx : String) (dest : List (String × JValue)) (k : String) (s1 s2 : Scalar),
      dest.lookup k = Option.some (.scalar s1) → s1 ≠ s2 →
      joinOne pfx dest [(k, .scalar s2)] = .error ⟨pfx ++ k, .scalar s2, .scalar s1⟩)
  ∧ joindicts [("a", .dict [("x", .scalar (.int 1))])]
      [[("a", .dict [("y", .scalar (.int 2))])]] ""
      = .ok [("a", .dict [("x", .scalar (.int 1)), ("y", .scalar (.int 2))])]
  ∧ joindicts [("a", .list [.scalar (.int 1)])] [[("a", .list [.scalar (.int 2)])]] ""
      = .ok [("a", .list [.scalar (.int 1), .scalar (.int 2)])]
  ∧ joindicts [("a", .scalar (.int 1))] [[("a", .scalar (.int 1))]] ""
      = .ok [("a", .scalar (.int 1))]
  ∧ joindicts [("a", .scalar (.int 1))] [[("a", .scalar (.int 2))]] ""
      = .error ⟨"a", .scalar (.int 2), .scalar (.int 1)⟩ := by
  refine ⟨?_, ?_, ?_, ?_, ?_, ?_, ?_, ?_, ?_⟩
  · intro pfx dest k v h
    simp [joinOne, h, dictSet]
  · intro pfx dest k d1 d2 h
    cases hres : joinOne (pfx ++ k ++ ".") d1 d2 with
    | ok m =>
      simp [joinOne, h, mergeVal, hres, Except.map, Bind.bind, Except.bind]
    | error e =>
      simp [joinOne, h, mergeVal, hres, Except.map, Bind.bind, Except.bind]
  · intro pfx dest k l1 l2 h
    simp [joinOne, h, mergeVal, Bind.bind, Except.bind]
  · intro pfx dest k s h
    simp [joinOne, h, mergeVal, Bind.bind, Except.bind]
  · intro pfx dest k s1 s2 h hne
    simp [joinOne, h, mergeVal, hne, Bind.bind, Except.bind]
  · simp [joindicts, joinOne, mergeVal, dictSet, Bind.bind, Except.bind,
      Except.map, List.lookup]
  · simp [joindicts, joinOne, mergeVal, dictSet, Bind.bind, Except.bind,
      Except.map, List.lookup]
  · simp [joindicts, joinOne, mergeVal, dictSet, Bind.bind, Except.bind,
      Except.map, List.lookup]
  · simp [joindicts, joinOne, mergeVal, dictSet, Bind.bind, Except.bind,
      Except.map, List.lookup]

/-- Witness for claim C2: the unequal-scalar-collision rule applied at a
concrete destination, key and pair of conflicting values. -/
theorem joindicts_merge_rules_witness :
    joinOne "p." [("k", .scalar (.str "u"))] [("k", .scalar (.str "v"))]
      = .error ⟨"p." ++ "k", .scalar (.str "v"), .scalar (.str "u")⟩ :=
  joindicts_merge_rules.2.2.2.2.1 "p." [("k", .scalar (.str "u"))] "k"
    (.str "u") (.str "v") rfl (by decide)

/-! ### Fixed configuration of the build orchestrator (`src/build.py`) -/

/-- Game-difficulty ranks accepted by the build. -/
def supported_ranks : List String := ["lr", "hr"]

/-- Languages the build emits translation rows for. -/
def supported_languages : List String := ["en"]

/-- The four reward conditions validated for an exact 100% drop rate;
everything else is checked for at least 100%. -/
def single_drop_conditions : List String :=
  ["Body Carve", "Tail Carve", "Shiny Drop", "Capture"]

/-- Guard `ensure(field, message)` applied to an `Option`-valued lookup, the usage
pattern of every referential-integrity check in the builders: a missing
(falsy) value raises `Exception("ERROR: " + message)`. -/
def ensureSome {α : Type} (field : Option α) (message : String) : Except String α :=
  match field with
  | Option.some v => .ok v
  | Option.none => .error ("ERROR: " ++ message)

/-- Modelled from the spec: the reverse lookup `id_of(language, name)` of the
data reader on a base map (the `DataReader`/`bidict` implementation is not among
the sources in view; §4.3 of the spec fixes its contract).  A base map is
modelled as its id/English-name association; a failed lookup yields the
falsy `Option.none` that the `ensure` call sites test for. -/
def id_of (m : List (Nat × String)) (name : String) : Option Nat :=
  (m.find? (fun p => p.2 == name)).map (fun p => p.1)

/-- Sequencing of a loop body that can raise, collecting the lists produced
by each iteration in order; the first raise aborts the loop. -/
def collectM {α β : Type} (f : α → Except String (List β)) :
    List α → Except String (List β)
  | [] => .ok []
  | a :: rest => do
      let ws ← f a
      let rest_ws ← collectM f rest
      pure (ws ++ rest_ws)

/-- A loop that builds one row per element and can raise, modelling
`for id, entry in map.items(): ... session.add(row)`. -/
def buildAll {α β : Type} (f : α → Except String β) (l : List α) :
    Except String (List β) :=
  collectM (fun a => (f a).map (fun b => [b])) l

theorem collectM_error {α β : Type} (f : α → Except String (List β))
    (l : List α) (a : α) (ha : a ∈ l) (he : ∃ e, f a = .error e) :
    ∃ msg, collectM f l = .error msg := by
  induction l with
  | nil => cases ha
  | cons hd tl ih =>
    rcases List.mem_cons.mp ha with rfl | hmem
    · obtain ⟨e, he⟩ := he
      exact ⟨e, by simp [collectM, he, Bind.bind, Except.bind]⟩
    · cases hhd : f hd with
      | error e => exact ⟨e, by simp [collectM, hhd, Bind.bind, Except.bind]⟩
      | ok v =>
        obtain ⟨msg, hmsg⟩ := ih hmem
        exact ⟨msg, by simp [collectM, hhd, hmsg, Bind.bind, Except.bind]⟩

theorem buildAll_error {α β : Type} (f : α → Except String β)
    (l : List α) (a : α) (ha : a ∈ l) (he : ∃ e, f a = .error e) :
    ∃ msg, buildAll f l = .error msg := by
  refine collectM_error _ l a ha ?_
  obtain ⟨e, he⟩ := he
  exact ⟨e, by simp [he, Except.map]⟩

theorem collectM_length {α β : Type} (f : α → Except String (List β))
    (l : List α) : ∀ rows, collectM f l = .ok rows →
      ∃ parts : List (List β), rows = parts.flatten ∧ parts.length = l.length := by
  induction l with
  | nil =>
    intro rows h
    refine ⟨[], ?_, rfl⟩
    simpa [collectM] using h.symm
  | cons hd tl ih =>
    intro rows h
    cases hhd : f hd with
    | error e => simp [collectM, hhd, Bind.bind, Except.bind] at h
    | ok ws =>
      cases htl : collectM f tl with
      | error e => simp [collectM, hhd, htl, Bind.bind, Except.bind] at h
      | ok rest_ws =>
        obtain ⟨parts, hparts, hlen⟩ := ih rest_ws htl
        have hrows : ws ++ rest_ws = rows := by
          have h' := h
          simp [collectM, hhd, htl, Bind.bind, Except.bind, pure, Except.pure] at h'
          exact h'
        exact ⟨ws :: parts, by simp [← hrows, hparts], by simp [hlen]⟩

/-! ### `validate_monster_rewards` (claims C1, C9) -/

/-- One reward line of a monster reward table: the English name of the
rewarded item, the stack size and the drop percentage. -/
structure RewardEntry where
  item_en : String
  stack : Int
  percentage : Int

/-- The per-location habitat values of a monster entry; absent or empty
sub-areas come through the data reader as falsy values. -/
structure HabitatValues where
  start_area : Option String
  move_area : Option String
  rest_area : Option String

/-- A merged monster entry as consumed by `validate_monster_rewards` and
`build_monsters`: rewards are grouped by condition, then by rank.  With
`supported_languages = ["en"]`, per-language name and description lookups
always yield the English fields. -/
structure MonsterEntry where
  id : Nat
  name_en : String
  description_en : String
  size : String
  hitzones : List (String × List (String × Int))
  rewards : List (String × List (String × List RewardEntry))
  habitats : List (String × HabitatValues)

/-- The warnings `validate_monster_rewards` can print via `ensure_warn`:
a percentage-sum warning or a duplicate-rewards warning, each identifying
the monster, rank and condition of the offending group. -/
inductive RewardWarning where
  | sumWarn (monster rank condition : String)
  | dupWarn (monster rank condition : String) (dups : List String)
deriving DecidableEq

/-- The body of the innermost loop of `validate_monster_rewards` for one
(monster, condition, rank) group: `ensure` the rank is supported (fatal),
then `ensure_warn` the percentage sum (exact 100 for single-drop conditions,
at least 100 otherwise), then `ensure_warn` the absence of duplicate item
names (single-drop conditions only). -/
def checkRewardGroup (monsterName condition rank : String)
    (rewards : List RewardEntry) : Except String (List RewardWarning) :=
  if rank ∈ supported_ranks then
    let percentage_sum := (rewards.map (fun r => r.percentage)).sum
    let sum_warns :=
      if condition ∈ single_drop_conditions then
        if percentage_sum = 100 then [] else
          [RewardWarning.sumWarn monsterName rank condition]
      else
        if 100 ≤ percentage_sum then [] else
          [RewardWarning.sumWarn monsterName rank condition]
    let dup_warns :=
      if condition ∈ single_drop_conditions then
        let duplicates := get_duplicates (rewards.map (fun r => r.item_en))
        if duplicates = [] then [] else
          [RewardWarning.dupWarn monsterName rank condition duplicates]
      else []
    .ok (sum_warns ++ dup_warns)
  else
    .error ("ERROR: " ++ ("Unsupported rank " ++ rank ++ " in " ++ monsterName
      ++ " rewards"))

/-- Function `validate_monster_rewards()`: runs `checkRewardGroup` over every
(monster, condition, rank) group of the monster map, collecting the printed
warnings; an `ensure` failure raises out of the whole validation. -/
def validate_monster_rewards (monster_map : List (Nat × MonsterEntry)) :
    Except String (List RewardWarning) :=
  collectM (fun p =>
    collectM (fun c =>
      collectM (fun r => checkRewardGroup p.2.name_en c.1 r.1 r.2) c.2)
      p.2.rewards) monster_map

theorem get_duplicates_ne_nil {α : Type} [DecidableEq α] (l : List α) :
    get_duplicates l ≠ [] ↔ ∃ x, 2 ≤ l.count x := by
  constructor
  · intro hne
    obtain ⟨x, hx⟩ := List.exists_mem_of_ne_nil _ hne
    exact ⟨x, (get_duplicates_mem l x).1 hx⟩
  · rintro ⟨x, hx⟩ heq
    have := (get_duplicates_mem l x).2 hx
    simp [heq] at this

/-- Claim C1: for every (monster, condition, rank) group processed by
`validate_monster_rewards` (i.e. whose rank passed the fatal rank check):
for single-drop conditions a sum warning is produced iff the percentages do
not sum to exactly 100 and a duplicate warning is produced iff some English
item name occurs more than once; for every other condition a sum warning is
produced iff the sum is below 100 and duplicates are never flagged.  The
group check itself never aborts. -/
theorem validate_monster_rewards_warnings :
    ∀ (monsterName condition rank : String) (rewards : List RewardEntry),
      rank ∈ supported_ranks →
      ∃ ws, checkRewardGroup monsterName condition rank rewards = .ok ws
        ∧ (condition ∈ single_drop_conditions →
            ((RewardWarning.sumWarn monsterName rank condition ∈ ws ↔
               (rewards.map (fun r => r.percentage)).sum ≠ 100)
          ∧ ((∃ ds, RewardWarning.dupWarn monsterName rank condition ds ∈ ws) ↔
               ∃ x, 2 ≤ (rewards.map (fun r => r.item_en)).count x)))
        ∧ (condition ∉ single_drop_conditions →
            ((RewardWarning.sumWarn monsterName rank condition ∈ ws ↔
               (rewards.map (fun r => r.percentage)).sum < 100)
          ∧ (∀ ds, RewardWarning.dupWarn monsterName rank condition ds ∉ ws))) := by
  intro monsterName condition rank rewards hrank
  simp only [checkRewardGroup, if_pos hrank]
  refine ⟨_, rfl, ?_, ?_⟩
  · intro hc
    have hdup := get_duplicates_ne_nil (rewards.map (fun r => r.item_en))
    constructor
    · by_cases hs : (rewards.map (fun r => r.percentage)).sum = 100 <;>
        by_cases hd : get_duplicates (rewards.map (fun r => r.item_en)) = [] <;>
        simp [hc, hs, hd]
    · by_cases hs : (rewards.map (fun r => r.percentage)).sum = 100 <;>
        by_cases hd : get_duplicates (rewards.map (fun r => r.item_en)) = [] <;>
        simp [hc, hs, hd, ← hdup]
  · intro hc
    constructor
    · by_cases hs : 100 ≤ (rewards.map (fun r => r.percentage)).sum
      · simp [hc, hs]
      · simp [hc, hs]
        omega
    · intro ds
      by_cases hs : 100 ≤ (rewards.map (fun r => r.percentage)).sum <;>
        simp [hc, hs]

/-- Witness for claim C1: a Body Carve low-rank group summing to exactly 100
with no duplicate item produces no warning and does not abort. -/
theorem validate_monster_rewards_warnings_witness :
    ∃ ws, checkRewardGroup "Rathalos" "Body Carve" "lr"
        [⟨"Rathalos Scale", 1, 100⟩] = .ok ws
      ∧ (RewardWarning.sumWarn "Rathalos" "lr" "Body Carve" ∈ ws ↔
          ((([⟨"Rathalos Scale", 1, 100⟩] : List RewardEntry).map
            (fun r => r.percentage)).sum ≠ 100)) := by
  obtain ⟨ws, hok, hsingle, _⟩ :=
    validate_monster_rewards_warnings "Rathalos" "Body Carve" "lr"
      [⟨"Rathalos Scale", 1, 100⟩] (by decide)
  exact ⟨ws, hok, (hsingle (by decide)).1⟩

/-- Claim C9: a reward group whose rank key is outside `{lr, hr}` makes
`validate_monster_rewards` raise a fatal error through `ensure` (aborting
the validation), in contrast with the percentage-sum and duplicate checks
of the same function, which only warn. -/
theorem validate_monster_rewards_rank_fatal :
    (∀ (monsterName condition rank : String) (rewards : List RewardEntry),
      rank ∉ supported_ranks →
      checkRewardGroup monsterName condition rank rewards
        = .error ("ERROR: " ++ ("Unsupported rank " ++ rank ++ " in "
            ++ monsterName ++ " rewards")))
  ∧ (∀ monster_map : List (Nat × MonsterEntry),
      (∃ p ∈ monster_map, ∃ c ∈ p.2.rewards, ∃ r ∈ c.2,
        r.1 ∉ supported_ranks) →
      ∃ msg, validate_monster_rewards monster_map = .error msg)
  ∧ (∀ (monsterName condition rank : String) (rewards : List RewardEntry),
      rank ∈ supported_ranks →
      ∃ ws, checkRewardGroup monsterName condition rank rewards = .ok ws) := by
  refine ⟨?_, ?_, ?_⟩
  · intro monsterName condition rank rewards hrank
    simp [checkRewardGroup, hrank]
  · rintro monster_map ⟨p, hp, c, hc, r, hr, hrank⟩
    refine collectM_error _ _ p hp ?_
    refine collectM_error _ _ c hc ?_
    refine collectM_error _ _ r hr ?_
    exact ⟨"ERROR: " ++ ("Unsupported rank " ++ r.1 ++ " in " ++ p.2.name_en
      ++ " rewards"), by simp [checkRewardGroup, hrank]⟩
  · intro monsterName condition rank rewards hrank
    simp only [checkRewardGroup, if_pos hrank]
    exact ⟨_, rfl⟩

/-- Witness for claim C9: a group under the unsupported rank key `"mr"`
aborts with the rank error. -/
theorem validate_monster_rewards_rank_fatal_witness :
    checkRewardGroup "Kirin" "Body Carve" "mr" []
      = .error ("ERROR: " ++ ("Unsupported rank " ++ "mr" ++ " in "
          ++ "Kirin" ++ " rewards")) :=
  validate_monster_rewards_rank_fatal.1 "Kirin" "Body Carve" "mr" [] (by decide)

/-! ### `build_items` (claim C5) -/

/-- Python `value or 0` on a numeric field that may be missing from the
source entry (modelled from the spec: the data reader hands back a missing
field as the falsy `None`): `None` and `0` are falsy and give `0`, any other
number passes through. -/
def pyIntOr0 (o : Option Int) : Int :=
  match o with
  | Option.none => 0
  | Option.some v => if v = 0 then 0 else v

/-- An item entry as consumed by `build_items`: the numeric fields may be
absent in the source, and the per-language description map may lack any
language. -/
structure ItemEntry where
  name_en : String
  description : List (String × String)
  rarity : Option Int
  buy_price : Option Int
  sell_price : Option Int
  carry_limit : Option Int

/-- One `db.ItemText` translation row. -/
structure ItemTranslation where
  lang_id : String
  name : String
  description : Option String
deriving DecidableEq

/-- One `db.Item` row with its translation rows. -/
structure ItemRow where
  id : Nat
  rarity : Int
  buy_price : Int
  sell_price : Int
  carry_limit : Int
  translations : List ItemTranslation
deriving DecidableEq

/-- The body of the `build_items` loop for one item: numeric fields go
through `or 0`, and the description uses `dict.get(language, None)`. -/
def buildItemRow (id : Nat) (entry : ItemEntry) : ItemRow :=
  { id := id
    rarity := pyIntOr0 entry.rarity
    buy_price := pyIntOr0 entry.buy_price
    sell_price := pyIntOr0 entry.sell_price
    carry_limit := pyIntOr0 entry.carry_limit
    translations := supported_languages.map (fun lang =>
      { lang_id := lang
        name := entry.name_en
        description := entry.description.lookup lang }) }

/-- Function `build_items(session)`: one row per item id, in map order. -/
def build_items (item_map : List (Nat × ItemEntry)) : List ItemRow :=
  item_map.map (fun p => buildItemRow p.1 p.2)

/-- Claim C5: `build_items` produces one row per item id; rarity, buy price,
sell price and carry limit each default to 0 when the field is absent in the
source entry; the per-language description may be absent and is then stored
as no-value. -/
theorem build_items_defaults :
    (∀ item_map : List (Nat × ItemEntry),
      (build_items item_map).length = item_map.length)
  ∧ (∀ item_map : List (Nat × ItemEntry), ∀ p ∈ item_map,
      buildItemRow p.1 p.2 ∈ build_items item_map)
  ∧ (∀ (id : Nat) (e : ItemEntry),
      (buildItemRow id e).id = id
      ∧ (e.rarity = Option.none → (buildItemRow id e).rarity = 0)
      ∧ (e.buy_price = Option.none → (buildItemRow id e).buy_price = 0)
      ∧ (e.sell_price = Option.none → (buildItemRow id e).sell_price = 0)
      ∧ (e.carry_limit = Option.none → (buildItemRow id e).carry_limit = 0)
      ∧ (buildItemRow id e).translations
          = [{ lang_id := "en", name := e.name_en,
               description := e.description.lookup "en" }]) := by
  refine ⟨?_, ?_, ?_⟩
  · intro item_map
    simp [build_items]
  · intro item_map p hp
    exact List.mem_map_of_mem _ hp
  · intro id e
    refine ⟨rfl, ?_, ?_, ?_, ?_, rfl⟩ <;>
      · intro h
        simp [buildItemRow, pyIntOr0, h]

/-- Witness for claim C5: an item entry with every numeric field absent and
no English description produces a row of zeros with a no-value description. -/
theorem build_items_defaults_witness :
    (buildItemRow 7 ⟨"Potion", [], Option.none, Option.none, Option.none,
        Option.none⟩).rarity = 0
  ∧ (buildItemRow 7 ⟨"Potion", [], Option.none, Option.none, Option.none,
        Option.none⟩).translations
      = [{ lang_id := "en", name := "Potion", description := Option.none }] := by
  have h := build_items_defaults.2.2 7
    ⟨"Potion", [], Option.none, Option.none, Option.none, Option.none⟩
  exact ⟨h.2.1 rfl, h.2.2.2.2.2⟩

/-! ### `build_armor` (claim C3) -/

/-- A merged armor entry (`armor_base.json` + `armor_data.json`): plain
attributes plus the name-based references the builder must resolve — the
English armor-set name, the skill grants and the craft recipe. -/
structure ArmorEntry where
  name_en : String
  rarity : Int
  armor_type : String
  male : Bool
  female : Bool
  slots : Int × Int × Int
  defense_base : Int
  defense_max : Int
  defense_augment_max : Int
  fire : Int
  water : Int
  thunder : Int
  ice : Int
  dragon : Int
  armorset : String
  skills : List (String × Int)
  craft : List (String × Int)

/-- One `db.ArmorSkill` row. -/
structure ArmorSkillRow where
  skilltree_id : Nat
  level : Int

/-- One `db.ArmorRecipe` row. -/
structure ArmorRecipeRow where
  item_id : Nat
  quantity : Int

/-- One `db.ArmorSet` row with its translation rows. -/
structure ArmorSetRow where
  id : Nat
  translations : List (String × String)

/-- One `db.Armor` row with its translation, skill and recipe rows. -/
structure ArmorRow where
  id : Nat
  rarity : Int
  armor_type : String
  male : Bool
  female : Bool
  slot_1 : Int
  slot_2 : Int
  slot_3 : Int
  defense_base : Int
  defense_max : Int
  defense_augment_max : Int
  fire : Int
  water : Int
  thunder : Int
  ice : Int
  dragon : Int
  armorset_id : Nat
  translations : List (String × String)
  skills : List ArmorSkillRow
  craft_items : List ArmorRecipeRow

/-- The body of the armor loop of `build_armor`: resolve the set, the skill
grants and the craft items by English name, each guarded by a fatal
`ensure`. -/
def buildArmorEntry (armorset_map skill_map item_map : List (Nat × String))
    (armor_id : Nat) (entry : ArmorEntry) : Except String ArmorRow := do
  let armorset_id ← ensureSome (id_of armorset_map entry.armorset)
    ("Armorset " ++ entry.armorset ++ " in Armor " ++ entry.name_en
      ++ " does not exist")
  let skills ← buildAll (fun (p : String × Int) => do
    let skill_id ← ensureSome (id_of skill_map p.1)
      ("Skill " ++ p.1 ++ " in Armor " ++ entry.name_en ++ " does not exist")
    pure (ArmorSkillRow.mk skill_id p.2)) entry.skills
  let craft_items ← buildAll (fun (p : String × Int) => do
    let item_id ← ensureSome (id_of item_map p.1)
      ("Item " ++ p.1 ++ " in Armor " ++ entry.name_en ++ " does not exist")
    pure (ArmorRecipeRow.mk item_id p.2)) entry.craft
  pure
    { id := armor_id
      rarity := entry.rarity
      armor_type := entry.armor_type
      male := entry.male
      female := entry.female
      slot_1 := entry.slots.1
      slot_2 := entry.slots.2.1
      slot_3 := entry.slots.2.2
      defense_base := entry.defense_base
      defense_max := entry.defense_max
      defense_augment_max := entry.defense_augment_max
      fire := entry.fire
      water := entry.water
      thunder := entry.thunder
      ice := entry.ice
      dragon := entry.dragon
      armorset_id := armorset_id
      translations := supported_languages.map (fun lang => (lang, entry.name_en))
      skills := skills
      craft_items := craft_items }

/-- Function `build_armor(session)`: writes all armor-set rows first (they cannot
fail), then one armor row per entry. -/
def build_armor (armorset_map skill_map item_map : List (Nat × String))
    (armor_map : List (Nat × ArmorEntry)) :
    Except String (List ArmorSetRow × List ArmorRow) := do
  let set_rows := armorset_map.map (fun p =>
    ArmorSetRow.mk p.1 (supported_languages.map (fun lang => (lang, p.2))))
  let armor_rows ← buildAll (fun (p : Nat × ArmorEntry) =>
    buildArmorEntry armorset_map skill_map item_map p.1 p.2) armor_map
  pure (set_rows, armor_rows)

/-! ### `build_monsters` (claim C3) -/

/-- Python `value or None` applied to the habitat sub-area fields: an
empty-string or missing area becomes no-value. -/
def pyStrOrNone (o : Option String) : Option String :=
  match o with
  | Option.none => Option.none
  | Option.some s => if s = "" then Option.none else Option.some s

/-- One `db.MonsterReward` row. -/
structure MonsterRewardRow where
  condition : String
  rank : String
  item_id : Nat
  stack_size : Int
  percentage : Int

/-- One `db.MonsterHabitat` row. -/
structure MonsterHabitatRow where
  location_id : Nat
  start_area : Option String
  move_area : Option String
  rest_area : Option String

/-- One `db.Monster` row with its translation, hitzone, reward and habitat
rows. -/
structure MonsterRow where
  id : Nat
  size : String
  translations : List (String × String × String)
  hitzones : List (String × List (String × Int))
  rewards : List MonsterRewardRow
  habitats : List MonsterHabitatRow

/-- The body of the `build_monsters` loop for one monster: hitzone values
pass through verbatim, reward items and habitat locations are resolved by
English name under a fatal `ensure`. -/
def buildMonsterEntry (item_map location_map : List (Nat × String))
    (entry : MonsterEntry) : Except String MonsterRow := do
  let rewards ← collectM (fun (c : String × List (String × List RewardEntry)) =>
    collectM (fun (r : String × List RewardEntry) =>
      buildAll (fun (rw : RewardEntry) => do
        let item_id ← ensureSome (id_of item_map rw.item_en)
          ("ERROR: item reward " ++ rw.item_en ++ " in monster "
            ++ entry.name_en ++ " does not exist")
        pure (MonsterRewardRow.mk c.1 r.1 item_id rw.stack rw.percentage))
        r.2) c.2) entry.rewards
  let habitats ← buildAll (fun (h : String × HabitatValues) => do
    let location_id ← ensureSome (id_of location_map h.1)
      ("Invalid location name " ++ h.1)
    pure (MonsterHabitatRow.mk location_id (pyStrOrNone h.2.start_area)
      (pyStrOrNone h.2.move_area) (pyStrOrNone h.2.rest_area))) entry.habitats
  pure
    { id := entry.id
      size := entry.size
      translations := supported_languages.map (fun lang =>
        (lang, entry.name_en, entry.description_en))
      hitzones := entry.hitzones
      rewards := rewards
      habitats := habitats }

/-- Function `build_monsters(session)`: one monster row per entry. -/
def build_monsters (item_map location_map : List (Nat × String))
    (monster_map : List (Nat × MonsterEntry)) :
    Except String (List MonsterRow) :=
  buildAll (fun p => buildMonsterEntry item_map location_map p.2) monster_map

/-! ### `build_weapons` (claims C3, C4) -/

/-- A per-weapon detail entry loaded by `load_split_data_map`. -/
structure WeaponEntry where
  name_en : String
  weapon_type : String
  rarity : Int
  attack : Int
  slots : Int × Int × Int
  element_type : Option String
  element_damage : Option Int
  element_hidden : Bool
  glaive_boost_type : Option String
  deviation : Option String
  special_ammo : Option String
  previous : Option String
  craft : Option (List (String × Int))
  upgrade : Option (List (String × Int))

/-- The truthiness test `entry.get("previous", None)`: a missing or empty
predecessor name counts as not declared. -/
def previousOf (e : WeaponEntry) : Option String :=
  match e.previous with
  | Option.none => Option.none
  | Option.some s => if s = "" then Option.none else Option.some s

/-- Expression `entry.get(recipe_type, {}) or {}`: an absent or falsy recipe dict is
an empty recipe. -/
def pyRecipe (o : Option (List (String × Int))) : List (String × Int) :=
  match o with
  | Option.none => []
  | Option.some l => l

/-- One step of the final-weapon pre-pass: a weapon declaring a truthy
`previous` removes the resolved predecessor id from the accumulated set; a
failed lookup (and likewise removing an id that is already gone) raises
`KeyError`, which the pre-pass catches and ignores, removing nothing. -/
def finalStep (weapon_map : List (Nat × String)) (acc : Finset Nat)
    (p : Nat × WeaponEntry) : Finset Nat :=
  match previousOf p.2 with
  | Option.none => acc
  | Option.some prev =>
    match id_of weapon_map prev with
    | Option.none => acc
    | Option.some prev_id => acc.erase prev_id

/-- The final-weapon pre-pass of `build_weapons`: start from the set of all
weapon ids and remove every id some weapon names as its predecessor. -/
def all_final (weapon_map : List (Nat × String))
    (weapon_data : List (Nat × WeaponEntry)) : Finset Nat :=
  weapon_data.foldl (finalStep weapon_map)
    (weapon_data.map (fun p => p.1)).toFinset

/-- One `db.WeaponRecipe` row. -/
structure WeaponRecipeRow where
  weapon_id : Nat
  item_id : Nat
  quantity : Int
  recipe_type : String

/-- One `db.Weapon` row with its translation rows and the recipe rows the
loop adds to the session alongside it. -/
structure WeaponRow where
  id : Nat
  weapon_type : String
  rarity : Int
  attack : Int
  slot_1 : Int
  slot_2 : Int
  slot_3 : Int
  element_type : Option String
  element_damage : Option Int
  element_hidden : Bool
  glaive_boost_type : Option String
  deviation : Option String
  special_ammo : Option String
  craftable : Bool
  final : Bool
  previous_weapon_id : Option Nat
  translations : List (String × String)
  recipes : List WeaponRecipeRow

/-- The body of the `build_weapons` loop for one weapon: a declared truthy
`previous` must resolve (fatal `ensure`), and every craft/upgrade recipe
item must resolve (fatal `ensure`; the source interpolates the falsy looked
up id, `None`, into that message). -/
def buildWeaponEntry (weapon_map item_map : List (Nat × String))
    (finals : Finset Nat) (weapon_id : Nat) (entry : WeaponEntry) :
    Except String WeaponRow := do
  let previous_weapon_id ← match previousOf entry with
    | Option.none => pure Option.none
    | Option.some prev => do
      let pid ← ensureSome (id_of weapon_map prev)
        ("Weapon " ++ prev ++ " does not exist")
      pure (Option.some pid)
  let craft_rows ← buildAll (fun (ing : String × Int) => do
    let item_id ← ensureSome (id_of item_map ing.1)
      ("Item None in weapon " ++ entry.name_en ++ " does not exist")
    pure (WeaponRecipeRow.mk weapon_id item_id ing.2 "craft"))
    (pyRecipe entry.craft)
  let upgrade_rows ← buildAll (fun (ing : String × Int) => do
    let item_id ← ensureSome (id_of item_map ing.1)
      ("Item None in weapon " ++ entry.name_en ++ " does not exist")
    pure (WeaponRecipeRow.mk weapon_id item_id ing.2 "upgrade"))
    (pyRecipe entry.upgrade)
  pure
    { id := weapon_id
      weapon_type := entry.weapon_type
      rarity := entry.rarity
      attack := entry.attack
      slot_1 := entry.slots.1
      slot_2 := entry.slots.2.1
      slot_3 := entry.slots.2.2
      element_type := entry.element_type
      element_damage := entry.element_damage
      element_hidden := entry.element_hidden
      glaive_boost_type := entry.glaive_boost_type
      deviation := entry.deviation
      special_ammo := entry.special_ammo
      craftable := !(pyRecipe entry.craft).isEmpty
      final := weapon_id ∈ finals
      previous_weapon_id := previous_weapon_id
      translations := supported_languages.map (fun lang => (lang, entry.name_en))
      recipes := craft_rows ++ upgrade_rows }

/-- Function `build_weapons(session)`: the final-weapon pre-pass over the split data
map, then one weapon row per entry. -/
def build_weapons (weapon_map item_map : List (Nat × String))
    (weapon_data : List (Nat × WeaponEntry)) :
    Except String (List WeaponRow) :=
  buildAll (fun p =>
    buildWeaponEntry weapon_map item_map (all_final weapon_map weapon_data)
      p.1 p.2) weapon_data

/-! ### `build_decorations` and `build_charms` (claim C3) -/

/-- The four feystone-tier chances merged under the `chances` key. -/
structure DecorationChances where
  mysterious : Int
  glowing : Int
  worn : Int
  warped : Int

/-- A merged decoration entry; `chances` is absent when the chance-merge
step did not supply data for the entry. -/
structure DecorationEntry where
  name_en : String
  skill_en : String
  rarity : Int
  slot : Int
  chances : Option DecorationChances

/-- One `db.Decoration` row with its translation rows (the source uses the
English name for every language here). -/
structure DecorationRow where
  id : Nat
  rarity : Int
  slot : Int
  skilltree_id : Nat
  mysterious_feystone_chance : Int
  glowing_feystone_chance : Int
  worn_feystone_chance : Int
  warped_feystone_chance : Int
  translations : List (String × String)

/-- The body of the `build_decorations` loop for one decoration: the granted
skill must resolve by English name and the `chances` data must be present,
both under a fatal `ensure`. -/
def buildDecorationEntry (skill_map : List (Nat × String))
    (decoration_id : Nat) (entry : DecorationEntry) :
    Except String DecorationRow := do
  let skill_id ← ensureSome (id_of skill_map entry.skill_en)
    ("Decoration " ++ entry.name_en ++ " refers to skill " ++ entry.skill_en
      ++ ", which doesn\x27t exist.")
  let chances ← ensureSome entry.chances
    ("Missing chance data for " ++ entry.name_en)
  pure
    { id := decoration_id
      rarity := entry.rarity
      slot := entry.slot
      skilltree_id := skill_id
      mysterious_feystone_chance := chances.mysterious
      glowing_feystone_chance := chances.glowing
      worn_feystone_chance := chances.worn
      warped_feystone_chance := chances.warped
      translations := supported_languages.map (fun lang =>
        (lang, entry.name_en)) }

/-- Function `build_decorations(session)`: one decoration row per entry. -/
def build_decorations (skill_map : List (Nat × String))
    (decoration_map : List (Nat × DecorationEntry)) :
    Except String (List DecorationRow) :=
  buildAll (fun p => buildDecorationEntry skill_map p.1 p.2) decoration_map

/-- A charm entry: skill grants and a craft recipe, both name-based. -/
structure CharmEntry where
  name_en : String
  skills : List (String × Int)
  craft : List (String × Int)

/-- One `db.CharmSkill` row. -/
structure CharmSkillRow where
  skilltree_id : Nat
  level : Int

/-- One `db.CharmRecipe` row. -/
structure CharmRecipeRow where
  item_id : Nat
  quantity : Int

/-- One `db.Charm` row with its translation, skill and recipe rows. -/
structure CharmRow where
  id : Nat
  translations : List (String × String)
  skills : List CharmSkillRow
  craft_items : List CharmRecipeRow

/-- The body of the `build_charms` loop for one charm: every granted skill
and every craft item must resolve by English name under a fatal `ensure`
(the source words both messages as `refers to item ...`). -/
def buildCharmEntry (skill_map item_map : List (Nat × String))
    (charm_id : Nat) (entry : CharmEntry) : Except String CharmRow := do
  let skills ← buildAll (fun (p : String × Int) => do
    let skill_id ← ensureSome (id_of skill_map p.1)
      ("Charm " ++ entry.name_en ++ " refers to item " ++ p.1
        ++ ", which doesn\x27t exist.")
    pure (CharmSkillRow.mk skill_id p.2)) entry.skills
  let craft_items ← buildAll (fun (p : String × Int) => do
    let item_id ← ensureSome (id_of item_map p.1)
      ("Charm " ++ entry.name_en ++ " refers to item " ++ p.1
        ++ ", which doesn\x27t exist.")
    pure (CharmRecipeRow.mk item_id p.2)) entry.craft
  pure
    { id := charm_id
      translations := supported_languages.map (fun lang => (lang, entry.name_en))
      skills := skills
      craft_items := craft_items }

/-- Function `build_charms(session)`: one charm row per entry. -/
def build_charms (skill_map item_map : List (Nat × String))
    (charm_map : List (Nat × CharmEntry)) : Except String (List CharmRow) :=
  buildAll (fun p => buildCharmEntry skill_map item_map p.1 p.2) charm_map

/-! ### Error propagation through the builders (claim C3) -/

theorem exceptBind_error {ε α β : Type} (x : Except ε α) (f : α → Except ε β)
    (h : ∃ e, x = .error e) : ∃ e, (x >>= f) = .error e := by
  obtain ⟨e, he⟩ := h
  exact ⟨e, by simp [he, Bind.bind, Except.bind]⟩

theorem exceptBind_error_right {ε α β : Type} (x : Except ε α)
    (f : α → Except ε β) (h : ∀ a, x = .ok a → ∃ e, f a = .error e) :
    ∃ e, (x >>= f) = .error e := by
  cases hx : x with
  | error e => exact ⟨e, by simp [Bind.bind, Except.bind]⟩
  | ok a =>
    obtain ⟨e, he⟩ := h a hx
    exact ⟨e, by simp [Bind.bind, Except.bind, he]⟩

theorem buildArmorEntry_set_missing (armorset_map skill_map item_map :
    List (Nat × String)) (armor_id : Nat) (e : ArmorEntry)
    (h : id_of armorset_map e.armorset = Option.none) :
    buildArmorEntry armorset_map skill_map item_map armor_id e
      = .error ("ERROR: " ++ ("Armorset " ++ e.armorset ++ " in Armor "
          ++ e.name_en ++ " does not exist")) := by
  simp [buildArmorEntry, ensureSome, h, Bind.bind, Except.bind]

theorem buildArmorEntry_skill_missing (armorset_map skill_map item_map :
    List (Nat × String)) (armor_id : Nat) (e : ArmorEntry)
    (s : String) (lvl : Int) (hs : (s, lvl) ∈ e.skills)
    (h : id_of skill_map s = Option.none) :
    ∃ msg, buildArmorEntry armorset_map skill_map item_map armor_id e
      = .error msg := by
  simp only [buildArmorEntry]
  refine exceptBind_error_right _ _ fun set_id _ => ?_
  refine exceptBind_error _ _ ?_
  refine buildAll_error _ _ (s, lvl) hs ?_
  exact ⟨"ERROR: " ++ ("Skill " ++ s ++ " in Armor " ++ e.name_en
    ++ " does not exist"), by simp [ensureSome, h, Bind.bind, Except.bind]⟩

theorem buildArmorEntry_item_missing (armorset_map skill_map item_map :
    List (Nat × String)) (armor_id : Nat) (e : ArmorEntry)
    (it : String) (q : Int) (hi : (it, q) ∈ e.craft)
    (h : id_of item_map it = Option.none) :
    ∃ msg, buildArmorEntry armorset_map skill_map item_map armor_id e
      = .error msg := by
  simp only [buildArmorEntry]
  refine exceptBind_error_right _ _ fun set_id _ => ?_
  refine exceptBind_error_right _ _ fun skills _ => ?_
  refine exceptBind_error _ _ ?_
  refine buildAll_error _ _ (it, q) hi ?_
  exact ⟨"ERROR: " ++ ("Item " ++ it ++ " in Armor " ++ e.name_en
    ++ " does not exist"), by simp [ensureSome, h, Bind.bind, Except.bind]⟩

theorem buildMonsterEntry_item_missing (item_map location_map :
    List (Nat × String)) (e : MonsterEntry)
    (c : String × List (String × List RewardEntry)) (hc : c ∈ e.rewards)
    (r : String × List RewardEntry) (hr : r ∈ c.2)
    (rw : RewardEntry) (hrw : rw ∈ r.2)
    (h : id_of item_map rw.item_en = Option.none) :
    ∃ msg, buildMonsterEntry item_map location_map e = .error msg := by
  simp only [buildMonsterEntry]
  refine exceptBind_error _ _ ?_
  refine collectM_error _ _ c hc ?_
  refine collectM_error _ _ r hr ?_
  refine buildAll_error _ _ rw hrw ?_
  exact ⟨"ERROR: " ++ ("ERROR: item reward " ++ rw.item_en ++ " in monster "
    ++ e.name_en ++ " does not exist"),
    by simp [ensureSome, h, Bind.bind, Except.bind]⟩

theorem buildMonsterEntry_location_missing (item_map location_map :
    List (Nat × String)) (e : MonsterEntry)
    (hb : String × HabitatValues) (hhb : hb ∈ e.habitats)
    (h : id_of location_map hb.1 = Option.none) :
    ∃ msg, buildMonsterEntry item_map location_map e = .error msg := by
  simp only [buildMonsterEntry]
  refine exceptBind_error_right _ _ fun rewards _ => ?_
  refine exceptBind_error _ _ ?_
  refine buildAll_error _ _ hb hhb ?_
  exact ⟨"ERROR: " ++ ("Invalid location name " ++ hb.1),
    by simp [ensureSome, h, Bind.bind, Except.bind]⟩

theorem buildWeaponEntry_previous_missing (weapon_map item_map :
    List (Nat × String)) (finals : Finset Nat) (weapon_id : Nat)
    (e : WeaponEntry) (prev : String) (hprev : previousOf e = Option.some prev)
    (h : id_of weapon_map prev = Option.none) :
    buildWeaponEntry weapon_map item_map finals weapon_id e
      = .error ("ERROR: " ++ ("Weapon " ++ prev ++ " does not exist")) := by
  simp [buildWeaponEntry, hprev, ensureSome, h, Bind.bind, Except.bind]

theorem buildWeaponEntry_item_missing (weapon_map item_map :
    List (Nat × String)) (finals : Finset Nat) (weapon_id : Nat)
    (e : WeaponEntry) (ing : String × Int)
    (hing : ing ∈ pyRecipe e.craft ∨ ing ∈ pyRecipe e.upgrade)
    (h : id_of item_map ing.1 = Option.none) :
    ∃ msg, buildWeaponEntry weapon_map item_map finals weapon_id e
      = .error msg := by
  simp only [buildWeaponEntry]
  cases hprev : previousOf e with
  | none =>
    refine exceptBind_error_right _ _ fun y _ => ?_
    rcases hing with hcraft | hupgrade
    · refine exceptBind_error _ _ ?_
      refine buildAll_error _ _ ing hcraft ?_
      exact ⟨"ERROR: " ++ ("Item None in weapon " ++ e.name_en
        ++ " does not exist"), by simp [ensureSome, h, Bind.bind, Except.bind]⟩
    · refine exceptBind_error_right _ _ fun craft_rows _ => ?_
      refine exceptBind_error _ _ ?_
      refine buildAll_error _ _ ing hupgrade ?_
      exact ⟨"ERROR: " ++ ("Item None in weapon " ++ e.name_en
        ++ " does not exist"), by simp [ensureSome, h, Bind.bind, Except.bind]⟩
  | some prev =>
    refine exceptBind_error_right _ _ fun pid _ => ?_
    refine exceptBind_error_right _ _ fun y _ => ?_
    rcases hing with hcraft | hupgrade
    · refine exceptBind_error _ _ ?_
      refine buildAll_error _ _ ing hcraft ?_
      exact ⟨"ERROR: " ++ ("Item None in weapon " ++ e.name_en
        ++ " does not exist"), by simp [ensureSome, h, Bind.bind, Except.bind]⟩
    · refine exceptBind_error_right _ _ fun craft_rows _ => ?_
      refine exceptBind_error _ _ ?_
      refine buildAll_error _ _ ing hupgrade ?_
      exact ⟨"ERROR: " ++ ("Item None in weapon " ++ e.name_en
        ++ " does not exist"), by simp [ensureSome, h, Bind.bind, Except.bind]⟩

theorem buildDecorationEntry_skill_missing (skill_map : List (Nat × String))
    (decoration_id : Nat) (e : DecorationEntry)
    (h : id_of skill_map e.skill_en = Option.none) :
    buildDecorationEntry skill_map decoration_id e
      = .error ("ERROR: " ++ ("Decoration " ++ e.name_en ++ " refers to skill "
          ++ e.skill_en ++ ", which doesn\x27t exist.")) := by
  simp [buildDecorationEntry, ensureSome, h, Bind.bind, Except.bind]

theorem buildCharmEntry_skill_missing (skill_map item_map :
    List (Nat × String)) (charm_id : Nat) (e : CharmEntry)
    (s : String) (lvl : Int) (hs : (s, lvl) ∈ e.skills)
    (h : id_of skill_map s = Option.none) :
    ∃ msg, buildCharmEntry skill_map item_map charm_id e = .error msg := by
  simp only [buildCharmEntry]
  refine exceptBind_error _ _ ?_
  refine buildAll_error _ _ (s, lvl) hs ?_
  exact ⟨"ERROR: " ++ ("Charm " ++ e.name_en ++ " refers to item " ++ s
    ++ ", which doesn\x27t exist."),
    by simp [ensureSome, h, Bind.bind, Except.bind]⟩

theorem buildCharmEntry_item_missing (skill_map item_map :
    List (Nat × String)) (charm_id : Nat) (e : CharmEntry)
    (it : String) (q : Int) (hi : (it, q) ∈ e.craft)
    (h : id_of item_map it = Option.none) :
    ∃ msg, buildCharmEntry skill_map item_map charm_id e = .error msg := by
  simp only [buildCharmEntry]
  refine exceptBind_error_right _ _ fun skills _ => ?_
  refine exceptBind_error _ _ ?_
  refine buildAll_error _ _ (it, q) hi ?_
  exact ⟨"ERROR: " ++ ("Charm " ++ e.name_en ++ " refers to item " ++ it
    ++ ", which doesn\x27t exist."),
    by simp [ensureSome, h, Bind.bind, Except.bind]⟩

/-- Claim C3: an armor entry whose `set` field names an armor set that the
English armor-set name map cannot resolve aborts the build with a fatal
error naming both the armor and the missing set; likewise every
unresolvable English-name reference to a skill, item, location or weapon
predecessor in the builders aborts the build with a fatal error instead of
producing a row. -/
theorem builders_fatal_on_unresolved_references :
    (∀ (armorset_map skill_map item_map : List (Nat × String))
        (armor_id : Nat) (e : ArmorEntry),
      id_of armorset_map e.armorset = Option.none →
      build_armor armorset_map skill_map item_map [(armor_id, e)]
        = .error ("ERROR: " ++ ("Armorset " ++ e.armorset ++ " in Armor "
            ++ e.name_en ++ " does not exist")))
  ∧ (∀ (armorset_map skill_map item_map : List (Nat × String))
        (armor_map : List (Nat × ArmorEntry)), ∀ p ∈ armor_map,
      id_of armorset_map p.2.armorset = Option.none →
      ∃ msg, build_armor armorset_map skill_map item_map armor_map
        = .error msg)
  ∧ (∀ (armorset_map skill_map item_map : List (Nat × String))
        (armor_map : List (Nat × ArmorEntry)), ∀ p ∈ armor_map,
      ∀ sk ∈ p.2.skills, id_of skill_map sk.1 = Option.none →
      ∃ msg, build_armor armorset_map skill_map item_map armor_map
        = .error msg)
  ∧ (∀ (armorset_map skill_map item_map : List (Nat × String))
        (armor_map : List (Nat × ArmorEntry)), ∀ p ∈ armor_map,
      ∀ ing ∈ p.2.craft, id_of item_map ing.1 = Option.none →
      ∃ msg, build_armor armorset_map skill_map item_map armor_map
        = .error msg)
  ∧ (∀ (item_map location_map : List (Nat × String))
        (monster_map : List (Nat × MonsterEntry)), ∀ p ∈ monster_map,
      ∀ c ∈ p.2.rewards, ∀ r ∈ c.2, ∀ rw ∈ r.2,
      id_of item_map (rw : RewardEntry).item_en = Option.none →
      ∃ msg, build_monsters item_map location_map monster_map = .error msg)
  ∧ (∀ (item_map location_map : List (Nat × String))
        (monster_map : List (Nat × MonsterEntry)), ∀ p ∈ monster_map,
      ∀ hb ∈ p.2.habitats, id_of location_map (hb : String × HabitatValues).1
        = Option.none →
      ∃ msg, build_monsters item_map location_map monster_map = .error msg)
  ∧ (∀ (weapon_map item_map : List (Nat × String))
        (weapon_data : List (Nat × WeaponEntry)), ∀ p ∈ weapon_data,
      ∀ prev, previousOf p.2 = Option.some prev →
      id_of weapon_map prev = Option.none →
      ∃ msg, build_weapons weapon_map item_map weapon_data = .error msg)
  ∧ (∀ (weapon_map item_map : List (Nat × String))
        (weapon_data : List (Nat × WeaponEntry)), ∀ p ∈ weapon_data,
      ∀ ing, (ing ∈ pyRecipe p.2.craft ∨ ing ∈ pyRecipe p.2.upgrade) →
      id_of item_map (ing : String × Int).1 = Option.none →
      ∃ msg, build_weapons weapon_map item_map weapon_data = .error msg)
  ∧ (∀ (skill_map : List (Nat × String))
        (decoration_map : List (Nat × DecorationEntry)), ∀ p ∈ decoration_map,
      id_of skill_map p.2.skill_en = Option.none →
      ∃ msg, build_decorations skill_map decoration_map = .error msg)
  ∧ (∀ (skill_map item_map : List (Nat × String))
        (charm_map : List (Nat × CharmEntry)), ∀ p ∈ charm_map,
      ∀ sk ∈ p.2.skills, id_of skill_map sk.1 = Option.none →
      ∃ msg, build_charms skill_map item_map charm_map = .error msg)
  ∧ (∀ (skill_map item_map : List (Nat × String))
        (charm_map : List (Nat × CharmEntry)), ∀ p ∈ charm_map,
      ∀ ing ∈ p.2.craft, id_of item_map ing.1 = Option.none →
      ∃ msg, build_charms skill_map item_map charm_map = .error msg) := by
  refine ⟨?_, ?_, ?_, ?_, ?_, ?_, ?_, ?_, ?_, ?_, ?_⟩
  · intro armorset_map skill_map item_map armor_id e h
    have hE := buildArmorEntry_set_missing armorset_map skill_map item_map
      armor_id e h
    simp [build_armor, buildAll, collectM, hE, Bind.bind, Except.bind,
      Except.map]
  · intro armorset_map skill_map item_map armor_map p hp h
    simp only [build_armor]
    refine exceptBind_error _ _ ?_
    refine buildAll_error _ _ p hp ?_
    exact ⟨_, buildArmorEntry_set_missing armorset_map skill_map item_map
      p.1 p.2 h⟩
  · intro armorset_map skill_map item_map armor_map p hp sk hsk h
    simp only [build_armor]
    refine exceptBind_error _ _ ?_
    refine buildAll_error _ _ p hp ?_
    exact buildArmorEntry_skill_missing armorset_map skill_map item_map
      p.1 p.2 sk.1 sk.2 hsk h
  · intro armorset_map skill_map item_map armor_map p hp ing hing h
    simp only [build_armor]
    refine exceptBind_error _ _ ?_
    refine buildAll_error _ _ p hp ?_
    exact buildArmorEntry_item_missing armorset_map skill_map item_map
      p.1 p.2 ing.1 ing.2 hing h
  · intro item_map location_map monster_map p hp c hc r hr rw hrw h
    simp only [build_monsters]
    refine buildAll_error _ _ p hp ?_
    exact buildMonsterEntry_item_missing item_map location_map p.2
      c hc r hr rw hrw h
  · intro item_map location_map monster_map p hp hb hhb h
    simp only [build_monsters]
    refine buildAll_error _ _ p hp ?_
    exact buildMonsterEntry_location_missing item_map location_map p.2
      hb hhb h
  · intro weapon_map item_map weapon_data p hp prev hprev h
    simp only [build_weapons]
    refine buildAll_error _ _ p hp ?_
    exact ⟨_, buildWeaponEntry_previous_missing weapon_map item_map
      (all_final weapon_map weapon_data) p.1 p.2 prev hprev h⟩
  · intro weapon_map item_map weapon_data p hp ing hing h
    simp only [build_weapons]
    refine buildAll_error _ _ p hp ?_
    exact buildWeaponEntry_item_missing weapon_map item_map
      (all_final weapon_map weapon_data) p.1 p.2 ing hing h
  · intro skill_map decoration_map p hp h
    simp only [build_decorations]
    refine buildAll_error _ _ p hp ?_
    exact ⟨_, buildDecorationEntry_skill_missing skill_map p.1 p.2 h⟩
  · intro skill_map item_map charm_map p hp sk hsk h
    simp only [build_charms]
    refine buildAll_error _ _ p hp ?_
    exact buildCharmEntry_skill_missing skill_map item_map p.1 p.2
      sk.1 sk.2 hsk h
  · intro skill_map item_map charm_map p hp ing hing h
    simp only [build_charms]
    refine buildAll_error _ _ p hp ?_
    exact buildCharmEntry_item_missing skill_map item_map p.1 p.2
      ing.1 ing.2 hing h

/-- Witness for claim C3: building a single armor entry against an empty
armor-set map aborts with the fatal error naming both the armor and the
missing set. -/
theorem builders_fatal_on_unresolved_references_witness :
    build_armor [] [] []
      [(1, { name_en := "Rath Helm", rarity := 1, armor_type := "head",
             male := true, female := true, slots := (0, 0, 0),
             defense_base := 1, defense_max := 1, defense_augment_max := 1,
             fire := 0, water := 0, thunder := 0, ice := 0, dragon := 0,
             armorset := "Rathalos", skills := [], craft := [] })]
      = .error ("ERROR: " ++ ("Armorset " ++ "Rathalos" ++ " in Armor "
          ++ "Rath Helm" ++ " does not exist")) :=
  builders_fatal_on_unresolved_references.1 [] [] [] 1
    { name_en := "Rath Helm", rarity := 1, armor_type := "head",
      male := true, female := true, slots := (0, 0, 0),
      defense_base := 1, defense_max := 1, defense_augment_max := 1,
      fire := 0, water := 0, thunder := 0, ice := 0, dragon := 0,
      armorset := "Rathalos", skills := [], craft := [] } rfl

/-! ### The final-weapon pre-pass (claim C4) -/

theorem foldl_finalStep (weapon_map : List (Nat × String))
    (l : List (Nat × WeaponEntry)) (init : Finset Nat) :
    l.foldl (finalStep weapon_map) init
      = init \ (l.filterMap (fun p =>
          (previousOf p.2).bind (id_of weapon_map))).toFinset := by
  induction l generalizing init with
  | nil => simp
  | cons hd tl ih =>
    rw [List.foldl_cons, ih]
    cases hp : previousOf hd.2 with
    | none => simp [finalStep, hp]
    | some prev =>
      cases hid : id_of weapon_map prev with
      | none => simp [finalStep, hp, hid]
      | some pid =>
        ext x
        simp [finalStep, hp, hid, Finset.mem_erase]
        tauto

/-- A minimal weapon detail entry for exercising the pre-pass on an upgrade
chain: only the name and the declared predecessor vary. -/
def mkChainWeapon (name : String) (prev : Option String) : WeaponEntry :=
  { name_en := name, weapon_type := "great-sword", rarity := 1, attack := 100,
    slots := (0, 0, 0), element_type := Option.none,
    element_damage := Option.none, element_hidden := false,
    glaive_boost_type := Option.none, deviation := Option.none,
    special_ammo := Option.none, previous := prev, craft := Option.none,
    upgrade := Option.none }

/-- Claim C4: the final-weapon pre-pass starts from the set of all weapon
ids and removes, for every weapon declaring a truthy `previous` name, the
resolved predecessor id; a failed lookup is silently tolerated and removes
nothing.  Consequently the chain A → B → C leaves exactly C final, and with
no `previous` declared anywhere every weapon id is final. -/
theorem build_weapons_final_prepass :
    (∀ (weapon_map : List (Nat × String))
        (weapon_data : List (Nat × WeaponEntry)),
      all_final weapon_map weapon_data
        = (weapon_data.map (fun p => p.1)).toFinset \
          (weapon_data.filterMap (fun p =>
            (previousOf p.2).bind (id_of weapon_map))).toFinset)
  ∧ (∀ (weapon_map : List (Nat × String)) (acc : Finset Nat)
        (p : Nat × WeaponEntry) (prev : String),
      previousOf p.2 = Option.some prev →
      id_of weapon_map prev = Option.none →
      finalStep weapon_map acc p = acc)
  ∧ (∀ (weapon_map : List (Nat × String))
        (weapon_data : List (Nat × WeaponEntry)),
      (∀ p ∈ weapon_data, previousOf p.2 = Option.none) →
      all_final weapon_map weapon_data
        = (weapon_data.map (fun p => p.1)).toFinset)
  ∧ all_final [(1, "A"), (2, "B"), (3, "C")]
      [(1, mkChainWeapon "A" Option.none),
       (2, mkChainWeapon "B" (Option.some "A")),
       (3, mkChainWeapon "C" (Option.some "B"))] = {3} := by
  refine ⟨?_, ?_, ?_, ?_⟩
  · intro weapon_map weapon_data
    exact foldl_finalStep weapon_map weapon_data _
  · intro weapon_map acc p prev hprev hid
    simp [finalStep, hprev, hid]
  · intro weapon_map weapon_data h
    rw [all_final, foldl_finalStep]
    have hnil : weapon_data.filterMap (fun p =>
        (previousOf p.2).bind (id_of weapon_map)) = [] := by
      rw [List.filterMap_eq_nil_iff]
      intro p hp
      simp [h p hp]
    simp [hnil]
  · decide

/-- Witness for claim C4: a lookup failure for a declared predecessor
(`"Ghost"` resolves to nothing in an empty weapon map) removes nothing from
the accumulated final set. -/
theorem build_weapons_final_prepass_witness :
    finalStep [] ({1, 2} : Finset Nat)
      (1, mkChainWeapon "A" (Option.some "Ghost")) = ({1, 2} : Finset Nat) :=
  build_weapons_final_prepass.2.1 [] {1, 2}
    (1, mkChainWeapon "A" (Option.some "Ghost")) "Ghost" (by decide) rfl

/-! ### The binary quest loader (claim C8)

The filesystem discovery and binary codecs of the quest loader (`rglob`,
`load_text`, `load_quest`, `read_struct_from_file`) are not among the
sources in view; they are modelled from the spec: a discovered `.mib` asset
carries its resolved English name and its parsed binary structure, and a
function from REM id to an optional parsed REM file stands for
`quest/rem/remData_<id>.rem` existing on disk (`Option.none` = missing). -/

/-- The parsed packed quest structure (`Mib`), to the depth the loader
inspects it: the reward-file ids of its objective section. -/
structure Mib where
  quest_id : Nat
  rem_ids : List Nat
deriving DecidableEq

/-- One parsed reward (`RemFile`) sub-structure. -/
structure RemFile where
  rem_id : Nat
deriving DecidableEq

/-- Modelled from the spec: one discovered quest asset — a `.mib` file with
its resolved English name from the localized text table. -/
structure QuestAsset where
  name_en : String
  binary : Mib
deriving DecidableEq

/-- An encapsulation of quest binary data and referenced cross data. -/
structure QuestInfo where
  name : String
  binary : Mib
  reward_data_list : List RemFile
deriving DecidableEq

/-- Function `load_quests()` over the discovered assets: a quest whose English name
is the placeholder `"Unavailable"` or `"Invalid Message"` is skipped
entirely; otherwise its referenced REM files are resolved, any missing on
disk silently dropped, and the rest parsed. -/
def load_quests (assets : List QuestAsset) (rem_on_disk : Nat → Option RemFile) :
    List QuestInfo :=
  match assets with
  | [] => []
  | a :: rest =>
    if a.name_en = "Unavailable" ∨ a.name_en = "Invalid Message" then
      load_quests rest rem_on_disk
    else
      { name := a.name_en, binary := a.binary,
        reward_data_list := a.binary.rem_ids.filterMap rem_on_disk }
        :: load_quests rest rem_on_disk

/-- Claim C8: a discovered quest whose resolved English name is exactly
`"Unavailable"` or `"Invalid Message"` never appears in the result of
`load_quests`; every other discovered quest appears, with its referenced
REM files loaded and any REM file missing on disk silently skipped. -/
theorem load_quests_filters_placeholders :
    (∀ (assets : List QuestAsset) (rem_on_disk : Nat → Option RemFile),
      load_quests assets rem_on_disk
        = (assets.filter (fun a => !(a.name_en == "Unavailable"
            || a.name_en == "Invalid Message"))).map
          (fun a => QuestInfo.mk a.name_en a.binary
            (a.binary.rem_ids.filterMap rem_on_disk)))
  ∧ (∀ (assets : List QuestAsset) (rem_on_disk : Nat → Option RemFile),
      ∀ a ∈ assets, a.name_en ≠ "Unavailable" → a.name_en ≠ "Invalid Message" →
      QuestInfo.mk a.name_en a.binary (a.binary.rem_ids.filterMap rem_on_disk)
        ∈ load_quests assets rem_on_disk)
  ∧ (∀ (assets : List QuestAsset) (rem_on_disk : Nat → Option RemFile),
      ∀ q ∈ load_quests assets rem_on_disk,
      q.name ≠ "Unavailable" ∧ q.name ≠ "Invalid Message") := by
  have hmain : ∀ (assets : List QuestAsset) (rem_on_disk : Nat → Option RemFile),
      load_quests assets rem_on_disk
        = (assets.filter (fun a => !(a.name_en == "Unavailable"
            || a.name_en == "Invalid Message"))).map
          (fun a => QuestInfo.mk a.name_en a.binary
            (a.binary.rem_ids.filterMap rem_on_disk)) := by
    intro assets rem_on_disk
    induction assets with
    | nil => simp [load_quests]
    | cons a rest ih =>
      by_cases h : a.name_en = "Unavailable" ∨ a.name_en = "Invalid Message"
      · have hb : (!(a.name_en == "Unavailable"
            || a.name_en == "Invalid Message")) = false := by
          rcases h with h | h <;> simp [h]
        simp only [load_quests, if_pos h, ih, List.filter_cons]
        rw [hb]
        simp
      · have hb : (!(a.name_en == "Unavailable"
            || a.name_en == "Invalid Message")) = true := by
          push_neg at h
          simp [h.1, h.2]
        simp only [load_quests, if_neg h, ih, List.filter_cons]
        rw [hb]
        simp
  refine ⟨hmain, ?_, ?_⟩
  · intro assets rem_on_disk a ha h1 h2
    rw [hmain]
    refine List.mem_map_of_mem _ ?_
    rw [List.mem_filter]
    exact ⟨ha, by simp [h1, h2]⟩
  · intro assets rem_on_disk q hq
    rw [hmain] at hq
    obtain ⟨a, ha, rfl⟩ := List.mem_map.mp hq
    have := (List.mem_filter.mp ha).2
    simp at this
    exact ⟨by simpa using this.1, by simpa using this.2⟩

/-- Witness for claim C8: one placeholder quest is dropped, one real quest
is kept with its existing REM file loaded and the missing one skipped. -/
theorem load_quests_filters_placeholders_witness :
    QuestInfo.mk "The Best Kind of Quest" (Mib.mk 101 [5, 6]) [RemFile.mk 5]
      ∈ load_quests
        [QuestAsset.mk "Unavailable" (Mib.mk 100 []),
         QuestAsset.mk "The Best Kind of Quest" (Mib.mk 101 [5, 6])]
        (fun i => if i = 5 then Option.some (RemFile.mk 5) else Option.none) := by
  have h := load_quests_filters_placeholders.2.1
    [QuestAsset.mk "Unavailable" (Mib.mk 100 []),
     QuestAsset.mk "The Best Kind of Quest" (Mib.mk 101 [5, 6])]
    (fun i => if i = 5 then Option.some (RemFile.mk 5) else Option.none)
    (QuestAsset.mk "The Best Kind of Quest" (Mib.mk 101 [5, 6]))
    (by simp) (by decide) (by decide)
  simpa using h

/-! ### `flatten_dict` (claim C10) -/

/-- The Python type name interpolated into the unsupported-type error
(Python renders it wrapped in a class tag; only the kind matters here). -/
def scalarTypeName : Scalar → String
  | .int _ => "int"
  | .str _ => "str"
  | .bool _ => "bool"
  | .pynone => "NoneType"

mutual
/-- Function `flatten_dict(d, prefix)`: renders a nested mapping/sequence structure
into a single-level mapping with `/`-separated keys for mapping descent and
`[index]` keys for sequence descent; any other value at the top of a call
raises the unsupported-type error. -/
def flatten_dict (pfx : String) : JValue → Except String (List (String × Scalar))
  | .dict entries =>
    flattenPairs (if pfx = "" then pfx else pfx ++ "/") entries
  | .list elems => flattenElems pfx 0 elems
  | .scalar s => .error ("Unsupported type " ++ scalarTypeName s)

/-- The dictionary loop of `flatten_dict`: scalar values are assigned at
`prefix + key`, everything else recurses with the extended prefix. -/
def flattenPairs (p : String) :
    List (String × JValue) → Except String (List (String × Scalar))
  | [] => .ok []
  | (key, .scalar s) :: rest =>
    (flattenPairs p rest).map (fun r => (p ++ key, s) :: r)
  | (key, value) :: rest => do
    pure ((← flatten_dict (p ++ key) value) ++ (← flattenPairs p rest))

/-- The sequence loop of `flatten_dict`: scalar elements are assigned at
`prefix[idx]`, everything else recurses with the indexed prefix. -/
def flattenElems (p : String) (idx : Nat) :
    List JValue → Except String (List (String × Scalar))
  | [] => .ok []
  | .scalar s :: rest =>
    (flattenElems p (idx + 1) rest).map
      (fun r => (p ++ "[" ++ toString idx ++ "]", s) :: r)
  | value :: rest => do
    pure ((← flatten_dict (p ++ "[" ++ toString idx ++ "]") value)
      ++ (← flattenElems p (idx + 1) rest))
end

theorem string_empty_append (s : String) : "" ++ s = s := by
  cases s
  rfl

/-- Claim C10: `flatten_dict` invoked with a top-level value that is neither
a mapping nor a sequence raises the unsupported-type error, even though the
same scalars are accepted as leaf values nested inside a mapping or a
sequence. -/
theorem flatten_dict_top_level_scalar :
    (∀ s : Scalar, flatten_dict "" (.scalar s)
        = .error ("Unsupported type " ++ scalarTypeName s))
  ∧ (∀ (k : String) (s : Scalar),
      flatten_dict "" (.dict [(k, .scalar s)]) = .ok [(k, s)])
  ∧ (∀ s : Scalar, flatten_dict "" (.list [.scalar s]) = .ok [("[0]", s)]) := by
  refine ⟨?_, ?_, ?_⟩
  · intro s
    simp [flatten_dict]
  · intro k s
    simp [flatten_dict, flattenPairs, Except.map, string_empty_append]
  · intro s
    simp [flatten_dict, flattenElems, Except.map]
    rfl

/-! ### `group_fields` / `ungroup_fields` (claim C7) -/

/-- Python `key.startswith(pre)` on Python strings, computed on character data. -/
def pyStartsWith (s pre : String) : Bool :=
  pre.data.isPrefixOf s.data

/-- Python slicing `key[n:]`, dropping the first `n` characters. -/
def pyDropChars (s : String) (n : Nat) : String :=
  String.mk (s.data.drop n)

/-- Function `check_not_grouped(obj, groups)`: the candidate group names not already
present in `obj` as a nested-mapping value. -/
def check_not_grouped (obj : List (String × JValue)) (groups : List String) :
    List String :=
  groups.filter (fun g =>
    match obj.lookup g with
    | Option.some (.dict _) => false
    | _ => true)

/-- Assignment `result.setdefault(group_name, {})[subkey] = value`: extend the group
dict in place, creating it at the end of the result when absent.  (When the
existing value under the group name is not a dict Python would fail mutating
it; that shape is never produced by `group_fields` itself.) -/
def addGroupField (result : List (String × JValue)) (g subkey : String)
    (v : JValue) : List (String × JValue) :=
  match result.lookup g with
  | Option.some (.dict d) => dictSet result g (.dict (dictSet d subkey v))
  | Option.some _ => result
  | Option.none => result ++ [(g, .dict [(subkey, v)])]

/-- Function `group_fields(obj, groups)`: consolidate every key of the form
`<group>_<subkey>` (for a requested, not-already-grouped group) under a
nested dict; other keys pass through unchanged in order. -/
def group_fields (obj : List (String × JValue)) (groups : List String) :
    List (String × JValue) :=
  let gs := check_not_grouped obj groups
  obj.foldl (fun result kv =>
    match gs.filter (fun g => pyStartsWith kv.1 (g ++ "_")) with
    | [] => dictSet result kv.1 kv.2
    | g :: _ => addGroupField result g (pyDropChars kv.1 (g.length + 1)) kv.2)
    []

/-- Function `ungroup_fields(obj, groups)`: flatten each mapping-valued key named in
`groups` back into `key_subkey` top-level entries.  (A grouped value that is
not a mapping would fail iterating in Python; it cannot occur on
`group_fields` output.) -/
def ungroup_fields (obj : List (String × JValue)) (groups : List String) :
    List (String × JValue) :=
  obj.foldl (fun result kv =>
    if kv.1 ∈ groups then
      match kv.2 with
      | .dict entries =>
        entries.foldl (fun r p => dictSet r (kv.1 ++ "_" ++ p.1) p.2) result
      | _ => result
    else dictSet result kv.1 kv.2) []

/-- Claim C7: on the ungrouped flat object
`{slot_size: 1, slot_count: 2, other: "x"}` with group list `["slot"]`,
`group_fields` yields `{slot: {size: 1, count: 2}, other: "x"}`, and
`ungroup_fields` of that result with the same group list reconstructs the
original object. -/
theorem group_ungroup_roundtrip :
    group_fields
        [("slot_size", .scalar (.int 1)), ("slot_count", .scalar (.int 2)),
         ("other", .scalar (.str "x"))] ["slot"]
      = [("slot", .dict [("size", .scalar (.int 1)),
          ("count", .scalar (.int 2))]), ("other", .scalar (.str "x"))]
  ∧ ungroup_fields
      (group_fields
        [("slot_size", .scalar (.int 1)), ("slot_count", .scalar (.int 2)),
         ("other", .scalar (.str "x"))] ["slot"]) ["slot"]
      = [("slot_size", .scalar (.int 1)), ("slot_count", .scalar (.int 2)),
         ("other", .scalar (.str "x"))] :=
  ⟨rfl, rfl⟩

end MHWorldData
